import Mathlib

/-!
Verification development for the ollama-voice-agent-multiagent backend.

The definitions below are a shallow embedding of the TypeScript source:
- `src/backend/src/server.ts` — the per-socket pending tool-execution map
  (the remote execution correlator), its `setFrontendToolEmitter` callback,
  the `tool-result` handler, the 10-second timeout closure, and the
  `disconnect` handler;
- `src/backend/src/tools/registry.ts` — `ToolRegistry.executeTool`,
  `executeChangeBackgroundColor`, `colorToHex`;
- the `VoiceAgent` class — `processMessage` history handling, `addToHistory`,
  `trimHistory`, and the conversation-context message construction.

JavaScript dynamic values that the code actually manipulates are modelled by
the small `Value` type; the JS `Map` is modelled by an association list with
`Map.get` as `List.lookup`, `Map.delete` as a key filter and `Map.set` as
replace-or-append; a promise's two settlement callbacks are modelled by a
settlement log indexed by a promise tag, and `await` on a promise that may
reject is modelled with `Except`.
-/

/-- JS runtime values appearing in tool parameters and results. -/
inductive Value where
  | str (s : String)
  | num (n : Int)
  | boolV (b : Bool)
  deriving DecidableEq, Repr

/-- Mirrors `ToolExecutionResult` of `registry.ts`: `\x7b success, result?, error? \x7d`.
`none` models an absent (undefined) field. -/
structure ToolExecutionResult where
  success : Bool
  result : Option Value := none
  error : Option String := none
  deriving DecidableEq, Repr

/-! ## Remote execution correlator (server.ts)

The per-socket state consists of `pendingToolExecutions : Map<string, resolvers>`
and, for observation, a log of promise settlements. Each promise created by the
frontend tool emitter is identified by a `Nat` tag; storing the tag in the map
models storing that promise's `\x7b resolve, reject \x7d` pair. -/

/-- One settlement of a delegated execution's promise: `resolve(\x7b success:true, result \x7d)`
or `reject(new Error(msg))`. -/
inductive Settlement where
  | resolvedOk (result : Option Value)
  | rejectedErr (msg : String)
  deriving DecidableEq, Repr

/-- Payload of an inbound `tool-result` socket message:
`\x7b executionId, success, result?, error? \x7d`. -/
structure ToolResultData where
  executionId : String
  success : Bool
  result : Option Value := none
  error : Option String := none
  deriving DecidableEq, Repr

/-- Per-socket correlator state: the `pendingToolExecutions` map (execution id to
the tag of the promise whose resolvers are stored there) plus the settlement log. -/
structure CorrState where
  pendingMap : List (String × Nat)
  settlements : List (Nat × Settlement)
  deriving DecidableEq, Repr

/-- `Map.delete k`: remove the entry with key `k`. -/
def mapDelete (m : List (String × Nat)) (k : String) : List (String × Nat) :=
  m.filter (fun p => !(p.1 == k))

/-- `Map.set k v`: replace the value if the key is present, else append. -/
def mapSet (m : List (String × Nat)) (k : String) (v : Nat) : List (String × Nat) :=
  if (m.lookup k).isSome then
    m.map (fun p => if p.1 == k then (k, v) else p)
  else
    m ++ [(k, v)]

/-- Execution id generation in the emitter callback (server.ts line 89):
`const executionId = socket.id + '-' + Date.now()`. -/
def genExecutionId (socketId : String) (now : Nat) : String :=
  socketId ++ "-" ++ toString now

/-- Deadline armed by the emitter callback (server.ts line 107): a fixed 10000 ms. -/
def toolTimeoutMs : Nat := 10000

/-- The emitter callback's promise setup (server.ts lines 88-99): generate the id,
`pendingToolExecutions.set(executionId, \x7b resolve, reject \x7d)`, emit `execute-tool`.
`tag` identifies the freshly created promise. -/
def beginStep (s : CorrState) (socketId : String) (now : Nat) (tag : Nat) : CorrState :=
  { s with pendingMap := mapSet s.pendingMap (genExecutionId socketId now) tag }

/-- JS `data.error || 'Tool execution failed'` (empty string is falsy). -/
def errMsgOf (e : Option String) : String :=
  match e with
  | some m => if m = "" then "Tool execution failed" else m
  | none => "Tool execution failed"

/-- Settlement performed by the `tool-result` handler once the entry is found:
resolve with `\x7b success:true, result \x7d` on success, else reject with the error. -/
def settlementOf (d : ToolResultData) : Settlement :=
  if d.success then Settlement.resolvedOk d.result
  else Settlement.rejectedErr (errMsgOf d.error)

/-- The `socket.on('tool-result')` handler (server.ts lines 112-128): look the id up;
if found, delete the entry and settle that promise; otherwise do nothing. -/
def toolResultStep (s : CorrState) (d : ToolResultData) : CorrState :=
  match s.pendingMap.lookup d.executionId with
  | none => s
  | some tag =>
      { pendingMap := mapDelete s.pendingMap d.executionId,
        settlements := s.settlements ++ [(tag, settlementOf d)] }

/-- The timeout closure (server.ts lines 102-107): if the id is still present,
delete the entry and reject the promise captured by the closure (`ownTag`) with
`new Error('Tool execution timeout')`. -/
def timeoutStep (s : CorrState) (execId : String) (ownTag : Nat) : CorrState :=
  if (s.pendingMap.lookup execId).isSome then
    { pendingMap := mapDelete s.pendingMap execId,
      settlements := s.settlements ++ [(ownTag, Settlement.rejectedErr "Tool execution timeout")] }
  else s

/-- The `socket.on('disconnect')` handler (server.ts lines 186-188): it only logs;
the correlator state is untouched. -/
def disconnectStep (s : CorrState) : CorrState := s

/-- Looking a key up after deleting it always fails. -/
theorem lookup_mapDelete_self (m : List (String × Nat)) (k : String) :
    (mapDelete m k).lookup k = none := by
  induction m with
  | nil => rfl
  | cons p t ih =>
      by_cases h : p.1 = k
      · simpa [mapDelete, List.filter, h] using ih
      · have hb : (p.1 == k) = false := by
          simpa [beq_iff_eq] using h
        simp [mapDelete, List.filter, hb, List.lookup] at ih ⊢
        have hb2 : (k == p.1) = false := by
          simpa [beq_iff_eq] using fun hkp => h hkp.symm
        simpa [hb2] using ih

/-- Claim C1: whichever of the matching `tool-result` message and the timeout
firing runs first finds the execution id present, removes the entry and settles
the promise; the other then finds the id absent and does nothing, so in either
scheduling order the promise receives exactly one settlement and the entry is gone. -/
theorem delegated_execution_settled_exactly_once
    (s : CorrState) (execId : String) (tag : Nat) (d : ToolResultData)
    (hl : s.pendingMap.lookup execId = some tag)
    (hd : d.executionId = execId) :
    (toolResultStep (timeoutStep s execId tag) d).settlements
        = s.settlements ++ [(tag, Settlement.rejectedErr "Tool execution timeout")]
    ∧ (timeoutStep (toolResultStep s d) execId tag).settlements
        = s.settlements ++ [(tag, settlementOf d)]
    ∧ (toolResultStep (timeoutStep s execId tag) d).pendingMap.lookup execId = none
    ∧ (timeoutStep (toolResultStep s d) execId tag).pendingMap.lookup execId = none := by
  have hto : timeoutStep s execId tag
      = { pendingMap := mapDelete s.pendingMap execId,
          settlements := s.settlements
            ++ [(tag, Settlement.rejectedErr "Tool execution timeout")] } := by
    simp [timeoutStep, hl]
  have htr : toolResultStep s d
      = { pendingMap := mapDelete s.pendingMap execId,
          settlements := s.settlements ++ [(tag, settlementOf d)] } := by
    simp [toolResultStep, hd, hl]
  refine ⟨?_, ?_, ?_, ?_⟩
  · rw [hto]
    simp [toolResultStep, hd, lookup_mapDelete_self]
  · rw [htr]
    simp [timeoutStep, lookup_mapDelete_self]
  · rw [hto]
    simp [toolResultStep, hd, lookup_mapDelete_self]
  · rw [htr]
    simp [timeoutStep, lookup_mapDelete_self]

/-- Witness for C1 at a concrete state: one pending execution, a successful
`tool-result`, in both scheduling orders. -/
theorem delegated_execution_settled_exactly_once_witness :
    (toolResultStep (timeoutStep ⟨[("sock1-171", 7)], []⟩ "sock1-171" 7)
        ⟨"sock1-171", true, some (Value.str "ok"), none⟩).settlements
      = [(7, Settlement.rejectedErr "Tool execution timeout")]
    ∧ (timeoutStep (toolResultStep ⟨[("sock1-171", 7)], []⟩
        ⟨"sock1-171", true, some (Value.str "ok"), none⟩) "sock1-171" 7).settlements
      = [(7, settlementOf ⟨"sock1-171", true, some (Value.str "ok"), none⟩)]
    ∧ (toolResultStep (timeoutStep ⟨[("sock1-171", 7)], []⟩ "sock1-171" 7)
        ⟨"sock1-171", true, some (Value.str "ok"), none⟩).pendingMap.lookup "sock1-171" = none
    ∧ (timeoutStep (toolResultStep ⟨[("sock1-171", 7)], []⟩
        ⟨"sock1-171", true, some (Value.str "ok"), none⟩) "sock1-171" 7).pendingMap.lookup
        "sock1-171" = none :=
  delegated_execution_settled_exactly_once ⟨[("sock1-171", 7)], []⟩ "sock1-171" 7
    ⟨"sock1-171", true, some (Value.str "ok"), none⟩ (by decide) rfl

/-- Claim C3: once the 10000 ms deadline fires with the entry still present, the
entry is removed from the pending map and the promise is rejected with the
timeout error; any `tool-result` for that execution id arriving afterwards is
discarded without effect. -/
theorem timeout_rejects_then_discards_results
    (s : CorrState) (execId : String) (tag : Nat)
    (h : (s.pendingMap.lookup execId).isSome = true) :
    (timeoutStep s execId tag).settlements
        = s.settlements ++ [(tag, Settlement.rejectedErr "Tool execution timeout")]
    ∧ (timeoutStep s execId tag).pendingMap.lookup execId = none
    ∧ (∀ d : ToolResultData, d.executionId = execId →
        toolResultStep (timeoutStep s execId tag) d = timeoutStep s execId tag)
    ∧ toolTimeoutMs = 10000 := by
  refine ⟨by simp [timeoutStep, h], by simp [timeoutStep, h, lookup_mapDelete_self], ?_, rfl⟩
  intro d hd
  simp [timeoutStep, h, toolResultStep, hd, lookup_mapDelete_self]

/-- Witness for C3 at a concrete state with one pending execution. -/
theorem timeout_rejects_then_discards_results_witness :
    (timeoutStep ⟨[("sock1-171", 3)], []⟩ "sock1-171" 3).settlements
        = [(3, Settlement.rejectedErr "Tool execution timeout")]
    ∧ (timeoutStep ⟨[("sock1-171", 3)], []⟩ "sock1-171" 3).pendingMap.lookup "sock1-171" = none
    ∧ (∀ d : ToolResultData, d.executionId = "sock1-171" →
        toolResultStep (timeoutStep ⟨[("sock1-171", 3)], []⟩ "sock1-171" 3) d
          = timeoutStep ⟨[("sock1-171", 3)], []⟩ "sock1-171" 3)
    ∧ toolTimeoutMs = 10000 :=
  timeout_rejects_then_discards_results ⟨[("sock1-171", 3)], []⟩ "sock1-171" 3 (by decide)

/-- Claim C4: processing a `tool-result` message whose execution id is absent from
the pending map leaves the whole state unchanged — no settlement occurs and the
map is untouched. -/
theorem unknown_execution_id_noop
    (s : CorrState) (d : ToolResultData)
    (h : s.pendingMap.lookup d.executionId = none) :
    toolResultStep s d = s := by
  simp [toolResultStep, h]

/-- Witness for C4: a `tool-result` for an id not in the map is a no-op. -/
theorem unknown_execution_id_noop_witness :
    toolResultStep ⟨[("sock1-171", 3)], []⟩ ⟨"sock2-999", true, none, none⟩
      = ⟨[("sock1-171", 3)], []⟩ :=
  unknown_execution_id_noop ⟨[("sock1-171", 3)], []⟩ ⟨"sock2-999", true, none, none⟩ (by decide)

/-- Counterexample to claim C5: with one delegated execution outstanding, the
`disconnect` handler settles nothing and leaves the entry pending — no
PeerDisconnected rejection happens. -/
theorem disconnect_no_rejection_counterexample :
    disconnectStep ⟨[("sock1-171", 3)], []⟩ = ⟨[("sock1-171", 3)], []⟩
    ∧ (disconnectStep ⟨[("sock1-171", 3)], []⟩).settlements = []
    ∧ ((disconnectStep ⟨[("sock1-171", 3)], []⟩).pendingMap.lookup "sock1-171").isSome = true := by
  exact ⟨rfl, rfl, by decide⟩

/-- Claim C5 (amended): the `disconnect` handler leaves the correlator state
unchanged; an outstanding execution stays pending until its own deadline timer
fires and rejects it with the timeout error, not a PeerDisconnected error. -/
theorem disconnect_leaves_executions_pending
    (s : CorrState) (execId : String) (tag : Nat)
    (h : (s.pendingMap.lookup execId).isSome = true) :
    disconnectStep s = s
    ∧ ((disconnectStep s).pendingMap.lookup execId).isSome = true
    ∧ (timeoutStep (disconnectStep s) execId tag).settlements
        = s.settlements ++ [(tag, Settlement.rejectedErr "Tool execution timeout")] := by
  exact ⟨rfl, h, by simp [disconnectStep, timeoutStep, h]⟩

/-- Witness for the amended C5 at a concrete state. -/
theorem disconnect_leaves_executions_pending_witness :
    disconnectStep ⟨[("sock1-42", 5)], []⟩ = ⟨[("sock1-42", 5)], []⟩
    ∧ ((disconnectStep ⟨[("sock1-42", 5)], []⟩).pendingMap.lookup "sock1-42").isSome = true
    ∧ (timeoutStep (disconnectStep ⟨[("sock1-42", 5)], []⟩) "sock1-42" 5).settlements
        = [(5, Settlement.rejectedErr "Tool execution timeout")] :=
  disconnect_leaves_executions_pending ⟨[("sock1-42", 5)], []⟩ "sock1-42" 5 (by decide)

/-- Claim C2 (code bug): two delegated calls on the same socket in the same
millisecond are given the same execution id; the second `Map.set` overwrites the
first call's still-outstanding entry, whose promise is left without a map entry
and unsettled. -/
theorem execution_id_collision :
    genExecutionId "abc" 171 = genExecutionId "abc" 171
    ∧ genExecutionId "abc" 171 = "abc-171"
    ∧ (beginStep (beginStep ⟨[], []⟩ "abc" 171 1) "abc" 171 2).pendingMap = [("abc-171", 2)]
    ∧ (beginStep (beginStep ⟨[], []⟩ "abc" 171 1) "abc" 171 2).settlements = []
    ∧ (beginStep ⟨[], []⟩ "abc" 171 1).pendingMap = [("abc-171", 1)] := by
  refine ⟨rfl, by decide, by decide, rfl, by decide⟩

/-! ## Tool registry (registry.ts) -/

/-- Mirrors `ToolCall`: a tool name with its parameter record. -/
structure ToolCall where
  name : String
  parameters : List (String × Value)
  deriving DecidableEq, Repr

/-- A frontend tool emitter: given a tool name and parameters it yields a promise
that either resolves with a `ToolExecutionResult` or rejects with an error message. -/
abbrev EmitterM := String → List (String × Value) → Except String ToolExecutionResult

/-- The color-name table of `ToolRegistry.colorToHex` (registry.ts lines 90-105). -/
def colorMap : List (String × String) :=
  [("red", "#FF0000"), ("blue", "#0000FF"), ("green", "#00FF00"), ("yellow", "#FFFF00"),
   ("orange", "#FFA500"), ("purple", "#800080"), ("pink", "#FFC0CB"), ("cyan", "#00FFFF"),
   ("black", "#000000"), ("white", "#FFFFFF"), ("gray", "#808080"), ("grey", "#808080"),
   ("dark", "#1a1a1a"), ("light", "#f5f5f5")]

/-- JS `String.prototype.startsWith`, modelled on the string's character list. -/
def strStartsWith (s p : String) : Bool :=
  p.data.isPrefixOf s.data

/-- JS `String.prototype.toLowerCase`, modelled characterwise (ASCII). -/
def strToLower (s : String) : String :=
  ⟨s.data.map Char.toLower⟩

/-- `ToolRegistry.colorToHex` (registry.ts lines 83-108): a string already starting
with `#` passes through; otherwise the lowercased name is looked up in the table,
falling back to the input itself (`colorMap[color.toLowerCase()] || color`; every
table value is a nonempty string, so truthiness coincides with presence). -/
def colorToHex (color : String) : String :=
  if strStartsWith color "#" then color
  else (colorMap.lookup (strToLower color)).getD color

/-- `ToolRegistry.executeChangeBackgroundColor` (registry.ts lines 52-78), with the
boolean recording whether the frontend emitter was invoked. The dynamic access
`parameters.color` followed by `color.startsWith('#')` inside `colorToHex` throws a
TypeError when the parameter is absent or not a string; the try/catch converts any
throw — including an `await` on a rejected emitter promise — into a failed result. -/
def executeChangeBackgroundColor (emitterOpt : Option EmitterM)
    (params : List (String × Value)) : Except String (ToolExecutionResult × Bool) :=
  match emitterOpt with
  | none => Except.ok ({ success := false, error := some "Frontend tool emitter not configured" }, false)
  | some emitter =>
      let body : Except String ToolExecutionResult × Bool :=
        match params.lookup "color" with
        | none =>
            (Except.error "Cannot read properties of undefined (reading 'startsWith')", false)
        | some (Value.str color) =>
            (emitter "changeBackgroundColor" [("color", Value.str (colorToHex color))], true)
        | some _ =>
            (Except.error "color.startsWith is not a function", false)
      match body with
      | (Except.ok result, invoked) => Except.ok (result, invoked)
      | (Except.error msg, invoked) =>
          Except.ok ({ success := false, error := some msg }, invoked)

/-- `ToolRegistry.executeTool` (registry.ts lines 34-47): the switch on the tool
name dispatches `changeBackgroundColor` and answers every other name with an
unknown-tool failure. The outer `Except` is the registry boundary: an `Except.error`
outcome would model an exception escaping `executeTool`. -/
def executeTool (emitterOpt : Option EmitterM) (tc : ToolCall) :
    Except String (ToolExecutionResult × Bool) :=
  if tc.name = "changeBackgroundColor" then
    executeChangeBackgroundColor emitterOpt tc.parameters
  else
    Except.ok ({ success := false, error := some ("Unknown tool: " ++ tc.name) }, false)

/-- Claim C7: an unregistered tool name yields an immediate unknown-tool failure
without invoking the emitter, and on every input `executeTool` returns a result
instead of letting an exception escape the registry boundary. -/
theorem executeTool_unknown_and_never_throws
    (emitterOpt : Option EmitterM) (tc : ToolCall) :
    (tc.name ≠ "changeBackgroundColor" →
        executeTool emitterOpt tc
          = Except.ok ({ success := false, result := none,
                         error := some ("Unknown tool: " ++ tc.name) }, false))
    ∧ ∃ r, executeTool emitterOpt tc = Except.ok r := by
  constructor
  · intro h
    simp [executeTool, h]
  · unfold executeTool executeChangeBackgroundColor
    by_cases h : tc.name = "changeBackgroundColor"
    · simp only [h, if_pos rfl]
      cases emitterOpt with
      | none => exact ⟨_, rfl⟩
      | some emitter =>
          cases hc : tc.parameters.lookup "color" with
          | none =>
              simp only [hc]
              exact ⟨_, rfl⟩
          | some v =>
              cases v with
              | str c =>
                  cases he : emitter "changeBackgroundColor" [("color", Value.str (colorToHex c))] with
                  | ok r =>
                      simp only [hc, he]
                      exact ⟨_, rfl⟩
                  | error m =>
                      simp only [hc, he]
                      exact ⟨_, rfl⟩
              | num n =>
                  simp only [hc]
                  exact ⟨_, rfl⟩
              | boolV b =>
                  simp only [hc]
                  exact ⟨_, rfl⟩
    · simp [h]

/-- Witness for C7: an unknown tool name with no emitter configured. -/
theorem executeTool_unknown_and_never_throws_witness :
    executeTool none ⟨"makeCoffee", []⟩
      = Except.ok ({ success := false, result := none,
                     error := some "Unknown tool: makeCoffee" }, false) :=
  (executeTool_unknown_and_never_throws none ⟨"makeCoffee", []⟩).1 (by decide)

/-- Tests whether an optional parameter value is a string. -/
def isStringValue : Option Value → Bool
  | some (Value.str _) => true
  | _ => false

/-- Claim C8: a `changeBackgroundColor` call whose parameters lack a string
`color` field fails before dispatch — the result has `success := false` and the
frontend emitter is never invoked. -/
theorem invalid_color_short_circuits
    (emitter : EmitterM) (params : List (String × Value))
    (h : isStringValue (params.lookup "color") = false) :
    ∃ msg, executeTool (some emitter) ⟨"changeBackgroundColor", params⟩
        = Except.ok ({ success := false, result := none, error := some msg }, false) := by
  unfold executeTool executeChangeBackgroundColor
  cases hc : params.lookup "color" with
  | none =>
      simp only [if_pos rfl, hc]
      exact ⟨_, rfl⟩
  | some v =>
      cases v with
      | str c => simp [isStringValue, hc] at h
      | num n =>
          simp only [if_pos rfl, hc]
          exact ⟨_, rfl⟩
      | boolV b =>
          simp only [if_pos rfl, hc]
          exact ⟨_, rfl⟩

/-- Witness for C8: a call with no `color` parameter at all. -/
theorem invalid_color_short_circuits_witness :
    ∃ msg, executeTool (some (fun _ _ => Except.ok { success := true }))
        ⟨"changeBackgroundColor", []⟩
        = Except.ok ({ success := false, result := none, error := some msg }, false) :=
  invalid_color_short_circuits (fun _ _ => Except.ok { success := true }) [] (by decide)

/-- Every value of the color table starts with a hash mark. -/
theorem colorMap_values_hash :
    ∀ p ∈ colorMap, strStartsWith p.2 "#" = true := by
  decide

/-- A successful association-list lookup returns a stored pair's value. -/
theorem lookup_mem_pair (l : List (String × String)) (k v : String)
    (h : l.lookup k = some v) : ∃ p ∈ l, p.2 = v := by
  induction l with
  | nil => simp [List.lookup] at h
  | cons q t ih =>
      by_cases hk : k = q.1
      · refine ⟨q, List.mem_cons_self q t, ?_⟩
        have hb : (k == q.1) = true := by simpa [beq_iff_eq] using hk
        cases q with
        | mk a b =>
            simp [List.lookup, hb] at h
            exact h
      · have hb : (k == q.1) = false := by simpa [beq_iff_eq] using hk
        cases q with
        | mk a b =>
            simp only [List.lookup] at h
            rw [show ((k == a) = false) from hb] at h
            simp at h
            obtain ⟨p, hp, hv⟩ := ih h
            exact ⟨p, List.mem_cons_of_mem _ hp, hv⟩

/-- Claim C10: `colorToHex` passes a string starting with `#` through unchanged,
maps the fourteen known color names (case-insensitively) to their hex codes,
passes any other string through unchanged, and the emitter receives exactly the
normalized color — never the raw name of a mapped color, since every mapped hex
code starts with `#` while the raw name does not. -/
theorem colorToHex_normalization (c : String) :
    (strStartsWith c "#" = true → colorToHex c = c)
    ∧ (strStartsWith c "#" = false → colorMap.lookup (strToLower c) = none → colorToHex c = c)
    ∧ (∀ hex, strStartsWith c "#" = false → colorMap.lookup (strToLower c) = some hex →
        colorToHex c = hex ∧ colorToHex c ≠ c)
    ∧ (∀ emitter : EmitterM,
        executeTool (some emitter) ⟨"changeBackgroundColor", [("color", Value.str c)]⟩
          = match emitter "changeBackgroundColor" [("color", Value.str (colorToHex c))] with
            | Except.ok r => Except.ok (r, true)
            | Except.error msg =>
                Except.ok ({ success := false, error := some msg }, true)) := by
  refine ⟨?_, ?_, ?_, ?_⟩
  · intro h
    simp [colorToHex, h]
  · intro h hn
    simp [colorToHex, h, hn]
  · intro hex h hl
    have hval : colorToHex c = hex := by simp [colorToHex, h, hl]
    refine ⟨hval, ?_⟩
    obtain ⟨p, hp, hv⟩ := lookup_mem_pair _ _ _ hl
    have hhash : strStartsWith hex "#" = true := hv ▸ colorMap_values_hash p hp
    intro heq
    rw [hval] at heq
    rw [heq] at hhash
    exact absurd (hhash.symm.trans h) (by simp)
  · intro emitter
    unfold executeTool executeChangeBackgroundColor
    simp only [if_pos rfl, List.lookup]
    cases he : emitter "changeBackgroundColor" [("color", Value.str (colorToHex c))] with
    | ok r => simp [he]
    | error m => simp [he]

/-- Witness for C10 at the mapped color name "Blue". -/
theorem colorToHex_normalization_witness :
    colorToHex "Blue" = "#0000FF" ∧ colorToHex "Blue" ≠ "Blue" :=
  (colorToHex_normalization "Blue").2.2.1 "#0000FF" (by decide) (by decide)

/-! ## VoiceAgent history and tool-result context message -/

/-- History entry roles of `ConversationEntry`. -/
inductive Role where
  | user
  | assistant
  deriving DecidableEq, Repr

/-- Mirrors `ConversationEntry`: role, content and timestamp. -/
structure ConversationEntry where
  role : Role
  content : String
  timestamp : Nat
  deriving DecidableEq, Repr

/-- `VoiceAgent.maxHistoryLength`: the configured bound of 10 exchanges. -/
def maxHistoryLength : Nat := 10

/-- `VoiceAgent.addToHistory`: push an entry with the current time. -/
def addToHistory (h : List ConversationEntry) (role : Role) (content : String)
    (now : Nat) : List ConversationEntry :=
  h ++ [⟨role, content, now⟩]

/-- `VoiceAgent.trimHistory`: keep the last `maxHistoryLength * 2` entries once the
length exceeds that bound. This method is defined in the source but never invoked. -/
def trimHistory (h : List ConversationEntry) : List ConversationEntry :=
  if h.length > maxHistoryLength * 2 then h.drop (h.length - maxHistoryLength * 2) else h

/-- History effect of one `VoiceAgent.processMessage` call: append the user turn,
append the assistant turn, and — only on the tool branch — apply
`if (history.length > 4) history = history.slice(-2)` (`slice(-2)` keeps the last
two entries). The no-tool branch performs no truncation, and `trimHistory` is not
called on either branch. -/
def processMessageHistory (h : List ConversationEntry) (userInput finalResponse : String)
    (t1 t2 : Nat) (toolBranch : Bool) : List ConversationEntry :=
  let h1 := addToHistory h Role.user userInput t1
  let h2 := addToHistory h1 Role.assistant finalResponse t2
  if toolBranch then
    (if h2.length > 4 then h2.drop (h2.length - 2) else h2)
  else h2

set_option maxRecDepth 10000 in
/-- Claim C6 (code bug): processing 11 utterances on the no-tool branch grows the
history to 22 entries, past the configured bound of `maxHistoryLength * 2 = 20`
— `trimHistory` would shrink the result, so retention was not applied — while
3 utterances on the tool branch leave only the last 2 entries rather than the
most recent 10 pairs. -/
theorem history_retention_not_applied :
    ((List.range 11).foldl (fun h _ => processMessageHistory h "u" "a" 0 0 false) []).length = 22
    ∧ maxHistoryLength * 2 = 20
    ∧ trimHistory ((List.range 11).foldl
          (fun h _ => processMessageHistory h "u" "a" 0 0 false) [])
        ≠ (List.range 11).foldl (fun h _ => processMessageHistory h "u" "a" 0 0 false) []
    ∧ ((List.range 3).foldl (fun h _ => processMessageHistory h "u" "a" 0 0 true) []).length = 2 := by
  refine ⟨by decide, rfl, by decide, by decide⟩

/-- Escaping of one character inside a JSON string literal. -/
def jsonEscapeChar (c : Char) : String :=
  if c = '"' then "\\\"" else if c = '\\' then "\\\\" else String.singleton c

/-- Escaping of a string for a JSON string literal. -/
def jsonEscape (s : String) : String :=
  String.join (s.data.map jsonEscapeChar)

/-- `JSON.stringify` of a parameter value. -/
def valueToJson : Value → String
  | Value.str s => "\"" ++ jsonEscape s ++ "\""
  | Value.num n => toString n
  | Value.boolV b => if b then "true" else "false"

/-- `JSON.stringify` of a `ToolExecutionResult` object: keys in construction order
(`success`, then `result`, then `error`), absent (undefined) fields omitted. -/
def resultToJson (r : ToolExecutionResult) : String :=
  "\x7b\"success\":" ++ (if r.success then "true" else "false")
    ++ (match r.result with
        | some v => ",\"result\":" ++ valueToJson v
        | none => "")
    ++ (match r.error with
        | some e => ",\"error\":\"" ++ jsonEscape e ++ "\""
        | none => "")
    ++ "\x7d"

/-- `JSON.stringify` of the collected `toolResults` array. -/
def resultsToJson (rs : List ToolExecutionResult) : String :=
  "[" ++ String.intercalate "," (rs.map resultToJson) ++ "]"

/-- The synthetic assistant context message built on the tool branch of
`processMessage`: the template literal of the third `responseMessages` entry. -/
def toolContextMessage (rs : List ToolExecutionResult) : String :=
  "Tool executed successfully: " ++ resultsToJson rs
    ++ ". Generate a natural, personality-driven response about what was done."

/-- The `responseMessages` array handed to the conversation model on the tool
branch: system prompt, the user input, and the synthetic context message. -/
def responseMessages (systemPrompt userInput : String) (rs : List ToolExecutionResult) :
    List (String × String) :=
  [("system", systemPrompt), ("user", userInput), ("assistant", toolContextMessage rs)]

set_option maxRecDepth 10000 in
/-- Claim C9: on every tool-branch turn the context message handed to the
conversation model starts with the fixed text `Tool executed successfully: `
followed by the JSON serialization of the collected results, whatever their
success flags; in particular two failed results still produce the
`successfully` framing. -/
theorem toolContext_success_framing_unconditional
    (systemPrompt userInput : String) (rs : List ToolExecutionResult) :
    responseMessages systemPrompt userInput rs
      = [("system", systemPrompt), ("user", userInput),
         ("assistant", "Tool executed successfully: " ++ resultsToJson rs
            ++ ". Generate a natural, personality-driven response about what was done.")]
    ∧ toolContextMessage
        [{ success := false, error := some "Tool execution timeout" },
         { success := false, error := some "Unknown tool: foo" }]
      = "Tool executed successfully: [\x7b\"success\":false,\"error\":\"Tool execution timeout\"\x7d,\x7b\"success\":false,\"error\":\"Unknown tool: foo\"\x7d]. Generate a natural, personality-driven response about what was done." := by
  exact ⟨rfl, by decide⟩
